import Mathlib

/-!
# Verification of the hybrid phishing-detection core (model bridge, cache, thresholds)

Shallow embedding of the TypeScript sources:
* `src/unnamed/part_000` — `modelBridge.js`: `ModelProvider.generateCacheKey`,
  `GeminiProvider`/`OpenAIProvider` (`analyzeText`, `chat`, `parseAnalysisResponse`,
  `parseChatResponse`), `LocalProvider`, `ModelBridge`
  (`initializeProviders`, `analyzeText`).
* `src/backend/dist/config/redis.js` — the `cache` utilities (`get`, `set`,
  `delete`, `generateKey`).
* `src/backend/src/config/config.ts` — `validateConfig` (threshold validation)
  and `getModelConfig`.
* `src/backend/dist/services/phishingDetection.d.ts` — declarations only; the
  implementation of `levenshteinDistance` and of the label-assignment stage of
  `mergeResults` is not in the source tree, so those two definitions are
  modelled from the spec and marked as such.

Scores and confidences are JavaScript numbers; they are embedded as rationals
(`ℚ`).  Network calls, the Redis client, and provider response bodies are
external inputs; each run of a provider method is a pure function of an
environment recording the outcome of every fallible external step (cache
lookup result, network outcome, response-body shape).
-/

/-! ## JavaScript-value helpers

`x || d` on a JS number/string with a possibly-absent field: `undefined`,
`null`, `0`, `NaN` and `""` are falsy.  Absent fields are `Option.none`; a
present numeric field `0` or string field `""` is still falsy. -/

/-- JS `v || d` for a possibly-absent numeric field (`0` is falsy). -/
def jsOrNum (v : Option ℚ) (d : ℚ) : ℚ :=
  match v with
  | none => d
  | some q => if q = 0 then d else q

/-- JS `v || d` for a possibly-absent string field (`""` is falsy). -/
def jsOrStr (v : Option String) (d : String) : String :=
  match v with
  | none => d
  | some s => if s = "" then d else s

/-- `Math.max(0, Math.min(1, x))`. -/
def clamp01 (x : ℚ) : ℚ := max 0 (min 1 x)

/-! ## Data model (`modelBridge.js` interfaces) -/

/-- `AnalysisRequest { text, url?, metadata? }` (metadata is never read by the
bridge, so it is omitted). -/
structure AnalysisRequest where
  text : String
  url : Option String
deriving DecidableEq, Repr

/-- `AnalysisResponse { score, label, reasons, explanation, confidence, model,
provider }`.  `label` is a runtime string in the JS code (the type annotation
`'suspicious' | 'clean' | 'uncertain'` is not enforced at runtime). -/
structure AnalysisResponse where
  score : ℚ
  label : String
  reasons : List String
  explanation : String
  confidence : ℚ
  model : String
  provider : String
deriving DecidableEq, Repr

/-- `ChatRequest { context, question, sessionId? }`. -/
structure ChatRequest where
  context : String
  question : String
  sessionId : Option String
deriving DecidableEq, Repr

/-- `ChatResponse { answer, sources, model, provider, confidence? }`. -/
structure ChatResponse where
  answer : String
  sources : List String
  model : String
  provider : String
  confidence : Option ℚ
deriving DecidableEq, Repr

/-! ## Cache utilities (`redis.js`)

Each cache operation wraps the underlying Redis client call in `try/catch`.
The client call's outcome is an external input, embedded as an
`Except String _` argument. -/

/-- `cache.generateKey(prefix, hash, model)` = `` `${prefix}:${hash}:${model}` ``
(the first argument is the operation name used as the key's leading part). -/
def cacheGenerateKey (opName hash model : String) : String :=
  opName ++ ":" ++ hash ++ ":" ++ model

/-- `cache.get(key)`: `try { value = client.get(key); return value ?
JSON.parse(value) : null } catch { log; return null }`.  `clientGet` is the
outcome of the Redis `get` (`.error` = client threw), `parseJson` the outcome
of `JSON.parse` on the raw string. -/
def cacheGetOp (clientGet : Except String (Option String))
    (parseJson : String → Except String AnalysisResponse) :
    Option AnalysisResponse :=
  match clientGet with
  | .error _ => none
  | .ok none => none
  | .ok (some raw) =>
    match parseJson raw with
    | .error _ => none
    | .ok v => some v

/-- `cache.set(key, value, ttl)`: `try { client.setEx(...) } catch { log }`.
Returns the log lines produced; the function always returns normally.  The
caller-visible result carries no error channel. -/
def cacheSetOp (clientSet : Except String Unit) : List String :=
  match clientSet with
  | .error e => ["Cache set error: " ++ e]
  | .ok _ => []

/-- `cache.delete(key)`: `try { client.del(key) } catch { log }`. -/
def cacheDeleteOp (clientDel : Except String Unit) : List String :=
  match clientDel with
  | .error e => ["Cache delete error: " ++ e]
  | .ok _ => []

/-! ## Provider response bodies

`parseAnalysisResponse` (Gemini: `data.candidates?.[0]?.content?.parts?.[0]?.text`;
OpenAI: `data.choices?.[0]?.message?.content`) extracts a text, matches
`/\x7b[\s\S]*\x7d/`, and `JSON.parse`s the match.  A body is embedded by the
outcome of that chain: either one of the three failure shapes, or the parsed
JSON object's relevant fields. -/

/-- The analysis-relevant fields of the JSON object parsed out of a provider
reply.  `none` = field absent (JS `undefined`); `reasons` is `some` exactly
when `Array.isArray(parsed.reasons)`. -/
structure ParsedFields where
  score : Option ℚ
  label : Option String
  reasons : Option (List String)
  explanation : Option String
  confidence : Option ℚ
deriving DecidableEq, Repr

/-- Outcome of the body-extraction chain of `parseAnalysisResponse`. -/
inductive ProviderBody where
  /-- the optional-chaining text extraction produced no content -/
  | noContent
  /-- content present but no `/\x7b[\s\S]*\x7d/` match -/
  | noJsonMatch
  /-- a match was found but `JSON.parse` threw -/
  | badJson
  /-- `JSON.parse` succeeded with these fields -/
  | json (fields : ParsedFields)
deriving DecidableEq, Repr

/-- The catch-branch of `parseAnalysisResponse`: the degraded placeholder
returned when the body cannot be parsed. -/
def parseFailureResponse (modelName provider : String) : AnalysisResponse :=
  { score := 1/2
    label := "uncertain"
    reasons := ["Analysis failed - unable to parse response"]
    explanation := "Unable to analyze content due to processing error"
    confidence := 1/10
    model := modelName
    provider := provider }

/-- `parseAnalysisResponse(data)` — identical bodies in `GeminiProvider` and
`OpenAIProvider` (they differ only in the content-extraction path, which is
abstracted into `ProviderBody`).  The success branch normalizes:
`score: Math.max(0, Math.min(1, parsed.score || 0))`,
`label: parsed.label || 'uncertain'`,
`reasons: Array.isArray(parsed.reasons) ? parsed.reasons : []`,
`explanation: parsed.explanation || 'Analysis completed'`,
`confidence: Math.max(0, Math.min(1, parsed.confidence || 0.5))`.
Every failure shape lands in the catch branch. -/
def parseAnalysisResponse (modelName provider : String) (data : ProviderBody) :
    AnalysisResponse :=
  match data with
  | .noContent => parseFailureResponse modelName provider
  | .noJsonMatch => parseFailureResponse modelName provider
  | .badJson => parseFailureResponse modelName provider
  | .json p =>
    { score := clamp01 (jsOrNum p.score 0)
      label := jsOrStr p.label "uncertain"
      reasons := p.reasons.getD []
      explanation := jsOrStr p.explanation "Analysis completed"
      confidence := clamp01 (jsOrNum p.confidence (1/2))
      model := modelName
      provider := provider }

/-- Outcome of the body extraction of `parseChatResponse`. -/
inductive ChatBody where
  | noContent
  | content (text : String)
deriving DecidableEq, Repr

/-- `parseChatResponse(data)` — again identical in both remote providers up to
the extraction path and the `sources` tag. -/
def parseChatResponse (sourceTag modelName provider : String) (data : ChatBody) :
    ChatResponse :=
  match data with
  | .noContent =>
    { answer := "I apologize, but I encountered an error processing your question. Please try again."
      sources := []
      model := modelName
      provider := provider
      confidence := some (1/10) }
  | .content text =>
    { answer := text.trimRight.trimLeft
      sources := [sourceTag]
      model := modelName
      provider := provider
      confidence := some (4/5) }

/-! ## Network and run environments -/

/-- Outcome of the `axios.post` call (30 s timeout).  `axios` throws on
timeout and on a non-2xx status; otherwise it resolves with the body. -/
inductive NetOutcome (β : Type) where
  /-- the 30000 ms timeout elapsed; axios rejects -/
  | timeout
  /-- the server answered with a non-2xx status; axios rejects -/
  | non2xx (status : Nat)
  /-- 2xx reply with this body -/
  | ok (body : β)
deriving DecidableEq, Repr

/-- External inputs consumed by one execution of a provider's `analyzeText`:
the result the cache `get` produces for each key (already folding in
`cacheGetOp`'s failure = miss behavior) and the network outcome. -/
structure Env where
  cacheGet : String → Option AnalysisResponse
  net : NetOutcome ProviderBody

/-- External inputs consumed by one execution of a provider's `chat`. -/
structure ChatEnv where
  cacheGet : String → Option ChatResponse
  net : NetOutcome ChatBody

/-- Trace of one execution of a provider `analyzeText` method:
the value returned (or the error thrown), whether `axios.post` was reached,
and the `cache.set` operations issued (key, value, TTL seconds). -/
structure ProviderRun where
  result : Except String AnalysisResponse
  networkCalled : Bool
  cacheSets : List (String × AnalysisResponse × Nat)
deriving Repr

/-- Trace of one execution of a provider `chat` method. -/
structure ChatRun where
  result : Except String ChatResponse
  networkCalled : Bool
  cacheSets : List (String × ChatResponse × Nat)
deriving Repr

/-- Whether the run returned normally. -/
def ProviderRun.ok (r : ProviderRun) : Bool :=
  match r.result with
  | .ok _ => true
  | .error _ => false

/-! ## Providers -/

/-- The three provider variants behind `ModelProvider`. -/
inductive ProviderKind where
  | gemini
  | openai
  | local
deriving DecidableEq, Repr

/-- A constructed provider instance: `ModelProvider(apiKey, modelName,
provider)` plus its concrete class. -/
structure Provider where
  kind : ProviderKind
  apiKey : Option String
  modelName : String
  providerName : String
deriving DecidableEq, Repr

/-- `ModelProvider.generateCacheKey(text, operation)`: SHA-256 of `text`,
hex, first 16 chars, then `cache.generateKey(operation, hash, modelName)`.
The hash function is an explicit parameter of the development (its value
never matters, only that the key is derived from it). -/
def generateCacheKey (hash : String → String) (modelName text operation : String) :
    String :=
  cacheGenerateKey operation (hash text) modelName

/-- `GeminiProvider.analyzeText` / `OpenAIProvider.analyzeText` (the two
methods are line-for-line identical up to the request shape sent over the
wire and the extraction path, both abstracted into `Env`):
cache lookup under `generateCacheKey(request.text, 'analysis')`; on hit,
return the cached value; on miss, `axios.post` — on throw, log and rethrow
`"... analysis failed: ..."`; on success, parse (never throws), cache for
3600 s, return. -/
def remoteAnalyzeText (hash : String → String) (modelName providerName : String)
    (env : Env) (request : AnalysisRequest) : ProviderRun :=
  let cacheKey := generateCacheKey hash modelName request.text "analysis"
  match env.cacheGet cacheKey with
  | some cached =>
    { result := .ok cached, networkCalled := false, cacheSets := [] }
  | none =>
    match env.net with
    | .timeout =>
      { result := .error "analysis failed: timeout of 30000ms exceeded"
        networkCalled := true, cacheSets := [] }
    | .non2xx status =>
      { result := .error ("analysis failed: Request failed with status code " ++ toString status)
        networkCalled := true, cacheSets := [] }
    | .ok body =>
      let result := parseAnalysisResponse modelName providerName body
      { result := .ok result
        networkCalled := true
        cacheSets := [(cacheKey, result, 3600)] }

/-- `GeminiProvider.chat` / `OpenAIProvider.chat`: cache key from
`` `${context}:${question}` `` and operation `'chat'`; on miss and network
success, cache for 1800 s. -/
def remoteChat (hash : String → String) (sourceTag modelName providerName : String)
    (env : ChatEnv) (request : ChatRequest) : ChatRun :=
  let cacheKey := generateCacheKey hash modelName
    (request.context ++ ":" ++ request.question) "chat"
  match env.cacheGet cacheKey with
  | some cached =>
    { result := .ok cached, networkCalled := false, cacheSets := [] }
  | none =>
    match env.net with
    | .timeout =>
      { result := .error "chat failed: timeout of 30000ms exceeded"
        networkCalled := true, cacheSets := [] }
    | .non2xx status =>
      { result := .error ("chat failed: Request failed with status code " ++ toString status)
        networkCalled := true, cacheSets := [] }
    | .ok body =>
      let result := parseChatResponse sourceTag modelName providerName body
      { result := .ok result
        networkCalled := true
        cacheSets := [(cacheKey, result, 1800)] }

/-- `LocalProvider.analyzeText`: placeholder, no cache, no network, never
throws. -/
def localAnalyzeResponse (modelName providerName : String) : AnalysisResponse :=
  { score := 1/2
    label := "uncertain"
    reasons := ["Local model not available"]
    explanation := "Local model analysis not implemented"
    confidence := 1/10
    model := modelName
    provider := providerName }

/-- Dispatch of `provider.analyzeText(request)` on the provider's class. -/
def providerAnalyzeText (hash : String → String) (p : Provider) (env : Env)
    (request : AnalysisRequest) : ProviderRun :=
  match p.kind with
  | .gemini => remoteAnalyzeText hash p.modelName p.providerName env request
  | .openai => remoteAnalyzeText hash p.modelName p.providerName env request
  | .local =>
    { result := .ok (localAnalyzeResponse p.modelName p.providerName)
      networkCalled := false, cacheSets := [] }

/-! ## Configuration (`config.ts`) -/

/-- The `modelProvider` field of `Config` (`'gemini' | 'openai' | 'local'`). -/
inductive ProviderChoice where
  | gemini
  | openai
  | local
deriving DecidableEq, Repr

/-- The slice of `Config` read by `getModelConfig` and
`ModelBridge.initializeProviders`. -/
structure AppConfig where
  modelProvider : ProviderChoice
  modelName : String
  geminiApiKey : Option String
  openaiApiKey : Option String
deriving DecidableEq, Repr

/-- Result of `getModelConfig()`. -/
structure ModelConfig where
  provider : ProviderChoice
  apiKey : Option String
  modelName : String
deriving DecidableEq, Repr

/-- `getModelConfig()` (`config.ts`): selects the API key matching the
configured provider (`local` has none). -/
def getModelConfig (cfg : AppConfig) : ModelConfig :=
  match cfg.modelProvider with
  | .gemini => { provider := .gemini, apiKey := cfg.geminiApiKey, modelName := cfg.modelName }
  | .openai => { provider := .openai, apiKey := cfg.openaiApiKey, modelName := cfg.modelName }
  | .local => { provider := .local, apiKey := none, modelName := cfg.modelName }

/-- The threshold check of `validateConfig()` (`config.ts`, lines 94-101):
`if (lowThreshold >= highThreshold || highThreshold >= reportThreshold) throw`.
Embedded as `Except`: `.error` = configuration loading rejects the triple. -/
def validateThresholds (low high report : ℚ) : Except String Unit :=
  if low ≥ high ∨ high ≥ report then
    .error "Invalid thresholds: LOW_THRESHOLD < HIGH_THRESHOLD < REPORT_THRESHOLD"
  else
    .ok ()

/-! ## ModelBridge -/

/-- The bridge state after the constructor ran: the `'primary'` slot of the
`providers` map (and the `'fallback'` slot), plus the resolved
`this.fallbackProvider`. -/
structure Bridge where
  primary : Option Provider
  fallbackSlot : Option Provider
  fallbackProvider : Provider
deriving DecidableEq, Repr

/-- `ModelBridge.initializeProviders()`:
* `'primary'` is set for `gemini`/`openai` only when the matching API key is
  present, and always for `local`;
* `'fallback'` is set to a fresh `GeminiProvider(config.geminiApiKey,
  'gemini-free', 'gemini')` only when `config.geminiApiKey` is present **and**
  no `'primary'` was set;
* `this.fallbackProvider = providers.get('fallback') || providers.get('primary')
  || new LocalProvider(undefined, 'local', 'local')`. -/
def initializeProviders (cfg : AppConfig) : Bridge :=
  let modelConfig := getModelConfig cfg
  let primary : Option Provider :=
    match modelConfig.provider with
    | .gemini =>
      modelConfig.apiKey.map fun k =>
        { kind := .gemini, apiKey := some k, modelName := modelConfig.modelName
          providerName := "gemini" }
    | .openai =>
      modelConfig.apiKey.map fun k =>
        { kind := .openai, apiKey := some k, modelName := modelConfig.modelName
          providerName := "openai" }
    | .local =>
      some { kind := .local, apiKey := none, modelName := modelConfig.modelName
             providerName := "local" }
  let fallbackSlot : Option Provider :=
    match cfg.geminiApiKey, primary with
    | some key, none =>
      some { kind := .gemini, apiKey := some key, modelName := "gemini-free"
             providerName := "gemini" }
    | _, _ => none
  { primary := primary
    fallbackSlot := fallbackSlot
    fallbackProvider :=
      fallbackSlot.getD (primary.getD
        { kind := .local, apiKey := none, modelName := "local", providerName := "local" }) }

/-- External inputs of one `ModelBridge.analyzeText` execution: one
environment per provider call that may happen. -/
structure BridgeEnv where
  primaryEnv : Env
  fallbackEnv : Env

/-- The emergency response of `ModelBridge.analyzeText` when the fallback
provider also throws. -/
def emergencyAnalysisResponse : AnalysisResponse :=
  { score := 1/2
    label := "uncertain"
    reasons := ["Model analysis unavailable"]
    explanation := "Unable to analyze content - all model providers are unavailable"
    confidence := 1/10
    model := "fallback"
    provider := "fallback" }

/-- Trace of one `ModelBridge.analyzeText` execution: the response (the
method never throws) and the providers whose `analyzeText` was invoked, in
order. -/
structure BridgeRun where
  response : AnalysisResponse
  calls : List Provider
deriving Repr

/-- `ModelBridge.analyzeText(request)`: try the `'primary'` slot (absence
throws `'No primary provider available'`, caught by the same handler); on any
throw, log and try `this.fallbackProvider`; if that also throws, return the
emergency response. -/
def bridgeAnalyzeText (hash : String → String) (b : Bridge) (env : BridgeEnv)
    (request : AnalysisRequest) : BridgeRun :=
  match b.primary with
  | some p =>
    let run := providerAnalyzeText hash p env.primaryEnv request
    match run.result with
    | .ok r => { response := r, calls := [p] }
    | .error _ =>
      let fbRun := providerAnalyzeText hash b.fallbackProvider env.fallbackEnv request
      match fbRun.result with
      | .ok r => { response := r, calls := [p, b.fallbackProvider] }
      | .error _ =>
        { response := emergencyAnalysisResponse, calls := [p, b.fallbackProvider] }
  | none =>
    let fbRun := providerAnalyzeText hash b.fallbackProvider env.fallbackEnv request
    match fbRun.result with
    | .ok r => { response := r, calls := [b.fallbackProvider] }
    | .error _ =>
      { response := emergencyAnalysisResponse, calls := [b.fallbackProvider] }

/-! ## Spec-modelled definitions

`src/backend/dist/services/phishingDetection.d.ts` declares
`PhishingDetector.levenshteinDistance` and `PhishingDetector.mergeResults`,
but the implementation file is not in the source tree; the two definitions
below are modelled from the spec. -/

/-- Modelled from the spec: `PhishingDetector.levenshteinDistance` (declared
in `phishingDetection.d.ts`; implementation missing from the source tree).
Spec: "classic dynamic-programming Levenshtein distance: insert/delete/
substitute each cost 1". -/
def levenshteinList : List Char → List Char → Nat
  | [], bs => bs.length
  | a :: as, [] => (a :: as).length
  | a :: as, b :: bs =>
    if a = b then levenshteinList as bs
    else 1 + min (levenshteinList as bs)
            (min (levenshteinList (a :: as) bs) (levenshteinList as (b :: bs)))
termination_by as bs => as.length + bs.length
decreasing_by all_goals simp_arith

/-- `levenshteinDistance(str1, str2)` on strings. -/
def levenshteinDistance (a b : String) : Nat :=
  levenshteinList a.data b.data

/-- The final-result labels of `DetectionResult`
(`'clean' | 'suspicious' | 'phishing'`). -/
inductive DetectionLabel where
  | clean
  | suspicious
  | phishing
deriving DecidableEq, Repr

/-- The three configured detection thresholds. -/
structure Thresholds where
  low : ℚ
  high : ℚ
  report : ℚ
deriving DecidableEq, Repr

/-- Modelled from the spec: the label-assignment stage of
`PhishingDetector.mergeResults` (declared in `phishingDetection.d.ts`;
implementation missing from the source tree).  Spec: "`score < low → clean`,
`low ≤ score < high → suspicious`, `score ≥ high → phishing`". -/
def assignLabel (t : Thresholds) (score : ℚ) : DetectionLabel :=
  if score < t.low then .clean
  else if score < t.high then .suspicious
  else .phishing

/-- The cache-read function visible to a later call after the `cache.set`
operations of an earlier run landed: a written entry is readable (returns the
stored value) for its whole TTL window; unrelated keys read as before. -/
def cacheAfterRun (c : String → Option AnalysisResponse)
    (sets : List (String × AnalysisResponse × Nat)) :
    String → Option AnalysisResponse :=
  sets.foldl (fun acc s => fun k => if k = s.1 then some s.2.1 else acc k) c

/-! ## Levenshtein lemmas -/

theorem levenshteinList_nil_left (bs : List Char) :
    levenshteinList [] bs = bs.length := by
  rw [levenshteinList]

theorem levenshteinList_nil_right (as : List Char) :
    levenshteinList as [] = as.length := by
  match as with
  | [] => rw [levenshteinList]
  | a :: as => rw [levenshteinList]

theorem levenshteinList_cons_eq (c : Char) (as bs : List Char) :
    levenshteinList (c :: as) (c :: bs) = levenshteinList as bs := by
  rw [levenshteinList]
  simp

theorem levenshteinList_cons_ne (a b : Char) (as bs : List Char) (h : a ≠ b) :
    levenshteinList (a :: as) (b :: bs) =
      1 + min (levenshteinList as bs)
            (min (levenshteinList (a :: as) bs) (levenshteinList as (b :: bs))) := by
  rw [levenshteinList]
  simp [h]

theorem levenshteinList_self (as : List Char) : levenshteinList as as = 0 := by
  induction as with
  | nil => rw [levenshteinList_nil_left]; rfl
  | cons a as ih => rw [levenshteinList_cons_eq]; exact ih

/-- Symmetry of the edit distance, by strong induction on the total length. -/
theorem levenshteinList_symm (as bs : List Char) :
    levenshteinList as bs = levenshteinList bs as := by
  have key : ∀ n as bs, (as : List Char).length + (bs : List Char).length = n →
      levenshteinList as bs = levenshteinList bs as := by
    intro n
    induction n using Nat.strong_induction_on with
    | _ n ih =>
      intro as bs hn
      match as, bs with
      | [], bs => rw [levenshteinList_nil_left, levenshteinList_nil_right]
      | a :: as, [] => rw [levenshteinList_nil_left, levenshteinList_nil_right]
      | a :: as, b :: bs =>
        by_cases hab : a = b
        · subst hab
          rw [levenshteinList_cons_eq, levenshteinList_cons_eq]
          exact ih (as.length + bs.length)
            (by simp only [List.length_cons] at hn; omega) as bs rfl
        · have hba : b ≠ a := fun h => hab h.symm
          rw [levenshteinList_cons_ne a b as bs hab,
            levenshteinList_cons_ne b a bs as hba]
          have h1 : levenshteinList as bs = levenshteinList bs as :=
            ih (as.length + bs.length) (by simp only [List.length_cons] at hn; omega) as bs rfl
          have h2 : levenshteinList (a :: as) bs = levenshteinList bs (a :: as) :=
            ih ((a :: as).length + bs.length) (by simp only [List.length_cons] at hn ⊢; omega) (a :: as) bs rfl
          have h3 : levenshteinList as (b :: bs) = levenshteinList (b :: bs) as :=
            ih (as.length + (b :: bs).length) (by simp only [List.length_cons] at hn ⊢; omega) as (b :: bs) rfl
          rw [h1, h2, h3]
          omega
  exact key (as.length + bs.length) as bs rfl

theorem levenshteinList_paypal :
    levenshteinList "paypal.com".data "paypa1.com".data = 1 := by
  have h1 : "paypal.com".data = ['p', 'a', 'y', 'p', 'a', 'l', '.', 'c', 'o', 'm'] := rfl
  have h2 : "paypa1.com".data = ['p', 'a', 'y', 'p', 'a', '1', '.', 'c', 'o', 'm'] := rfl
  rw [h1, h2]
  rw [levenshteinList_cons_eq, levenshteinList_cons_eq, levenshteinList_cons_eq,
    levenshteinList_cons_eq, levenshteinList_cons_eq]
  rw [levenshteinList_cons_ne _ _ _ _ (by decide)]
  rw [levenshteinList_self]
  simp

/-! ## General helper lemmas -/

theorem ProviderRun.error_of_ok_false {r : ProviderRun} (h : r.ok = false) :
    ∃ e, r.result = Except.error e := by
  unfold ProviderRun.ok at h
  cases hr : r.result with
  | ok v => rw [hr] at h; simp at h
  | error e => exact ⟨e, rfl⟩

theorem clamp01_nonneg (x : ℚ) : 0 ≤ clamp01 x := le_max_left 0 _

theorem clamp01_le_one (x : ℚ) : clamp01 x ≤ 1 :=
  max_le (by norm_num) (min_le_left 1 x)

/-- A bridge built by `initializeProviders` with a primary provider present
has that very provider in the `fallbackProvider` field (the `'fallback'` map
slot is only filled when no primary exists). -/
theorem initializeProviders_fallback_eq_primary (cfg : AppConfig) (p : Provider)
    (hb : (initializeProviders cfg).primary = some p) :
    (initializeProviders cfg).fallbackProvider = p := by
  unfold initializeProviders at hb ⊢
  cases hmp : cfg.modelProvider <;>
    cases hg : cfg.geminiApiKey <;>
    cases ho : cfg.openaiApiKey <;>
    simp [getModelConfig, hmp, hg, ho] at hb ⊢ <;>
    simp [hb]

/-! ## Claim theorems -/

/-- **C4**: for configured thresholds `low < high` the final label is `clean`
iff `score < low`, `suspicious` iff `low ≤ score < high`, and `phishing` iff
`score ≥ high`; and `validateConfig` accepts a threshold triple exactly when
`low < high < report` (rejecting every other triple). -/
theorem claim_C4_label_thresholds (t : Thresholds) (s : ℚ) (hlh : t.low < t.high) :
    ((assignLabel t s = .clean) ↔ s < t.low) ∧
    ((assignLabel t s = .suspicious) ↔ t.low ≤ s ∧ s < t.high) ∧
    ((assignLabel t s = .phishing) ↔ t.high ≤ s) ∧
    (∀ low high report : ℚ,
      validateThresholds low high report = .ok () ↔ low < high ∧ high < report) := by
  refine ⟨?_, ?_, ?_, ?_⟩
  · unfold assignLabel
    split_ifs with h1 h2
    · exact iff_of_true rfl h1
    · exact iff_of_false (by simp) h1
    · exact iff_of_false (by simp) h1
  · unfold assignLabel
    split_ifs with h1 h2
    · exact iff_of_false (by simp) (by intro h; exact absurd h.1 (not_le.mpr h1))
    · exact iff_of_true rfl ⟨le_of_not_lt h1, h2⟩
    · exact iff_of_false (by simp) (by intro h; exact h2 h.2)
  · unfold assignLabel
    split_ifs with h1 h2
    · exact iff_of_false (by simp) (by intro h; linarith)
    · exact iff_of_false (by simp) (by intro h; linarith)
    · exact iff_of_true rfl (le_of_not_lt h2)
  · intro low high report
    unfold validateThresholds
    split_ifs with h
    · simp only [reduceCtorEq, false_iff]
      rcases h with h | h <;> intro hc <;> rcases hc with ⟨h1, h2⟩ <;> linarith
    · push_neg at h
      simp only [true_iff]
      exact ⟨h.1, h.2⟩

/-- Witness for C4 at the documented configuration `low=0.3, high=0.7,
report=0.8`: score `0.29` is labelled `clean` and score `0.31` `suspicious`,
and the default triple passes validation. -/
theorem claim_C4_label_thresholds_witness :
    (3/10 : ℚ) < 7/10 ∧
    assignLabel ⟨3/10, 7/10, 8/10⟩ (29/100) = .clean ∧
    assignLabel ⟨3/10, 7/10, 8/10⟩ (31/100) = .suspicious ∧
    validateThresholds (3/10) (7/10) (8/10) = .ok () :=
  ⟨by norm_num,
    ((claim_C4_label_thresholds ⟨3/10, 7/10, 8/10⟩ (29/100) (by norm_num)).1).mpr
      (by norm_num),
    ((claim_C4_label_thresholds ⟨3/10, 7/10, 8/10⟩ (31/100) (by norm_num)).2.1).mpr
      (by norm_num),
    ((claim_C4_label_thresholds ⟨3/10, 7/10, 8/10⟩ 0 (by norm_num)).2.2.2
        (3/10) (7/10) (8/10)).mpr
      (by norm_num)⟩

/-- **C7**: the cache operations are best-effort: `cache.get` returns `null`
(a miss) both when the Redis client throws and when `JSON.parse` throws,
instead of propagating; `cache.set` and `cache.delete` swallow every failure,
producing only a log line and returning normally. -/
theorem claim_C7_cache_best_effort :
    (∀ (e : String) (parse : String → Except String AnalysisResponse),
      cacheGetOp (.error e) parse = none) ∧
    (∀ (raw e : String) (parse : String → Except String AnalysisResponse),
      parse raw = .error e → cacheGetOp (.ok (some raw)) parse = none) ∧
    (∀ e : String, cacheSetOp (.error e) = ["Cache set error: " ++ e]) ∧
    (∀ u : Unit, cacheSetOp (.ok u) = []) ∧
    (∀ e : String, cacheDeleteOp (.error e) = ["Cache delete error: " ++ e]) ∧
    (∀ u : Unit, cacheDeleteOp (.ok u) = []) := by
  refine ⟨fun e parse => rfl, fun raw e parse h => ?_, fun e => rfl, fun u => rfl,
    fun e => rfl, fun u => rfl⟩
  simp [cacheGetOp, h]

/-- Witness for C7: a concrete failing `JSON.parse` makes `cache.get` answer
a miss. -/
theorem claim_C7_cache_best_effort_witness :
    (fun _ : String => (Except.error "bad json" : Except String AnalysisResponse)) "raw"
      = .error "bad json" ∧
    cacheGetOp (.ok (some "raw")) (fun _ => .error "bad json") = none :=
  ⟨rfl, claim_C7_cache_best_effort.2.1 "raw" "bad json" (fun _ => .error "bad json") rfl⟩

/-- **C9**: the edit distance (modelled from the spec, the implementation of
`PhishingDetector.levenshteinDistance` being absent from the source tree) is
the classic unit-cost Levenshtein distance: it is symmetric, and
`d("paypal.com","paypa1.com") = 1`, `d("paypal.com","paypal.com") = 0`. -/
theorem claim_C9_levenshtein_symmetric :
    (∀ a b : String, levenshteinDistance a b = levenshteinDistance b a) ∧
    levenshteinDistance "paypal.com" "paypa1.com" = 1 ∧
    levenshteinDistance "paypal.com" "paypal.com" = 0 :=
  ⟨fun a b => levenshteinList_symm a.data b.data,
    levenshteinList_paypal,
    levenshteinList_self "paypal.com".data⟩

/-- **C1**: `ModelBridge.analyzeText` always returns a complete
`AnalysisResponse` (the embedding is a total function: no exception escapes),
and when the primary provider call fails and the fallback provider call also
fails, the returned response is exactly the degraded result with `score=0.5`,
`label='uncertain'`, `confidence=0.1` and a reason stating that model
analysis was unavailable. -/
theorem claim_C1_bridge_never_throws_degraded (hash : String → String)
    (b : Bridge) (env : BridgeEnv) (req : AnalysisRequest)
    (hp : ∀ p, b.primary = some p →
      (providerAnalyzeText hash p env.primaryEnv req).ok = false)
    (hf : (providerAnalyzeText hash b.fallbackProvider env.fallbackEnv req).ok = false) :
    (bridgeAnalyzeText hash b env req).response = emergencyAnalysisResponse ∧
    (bridgeAnalyzeText hash b env req).response.score = 1/2 ∧
    (bridgeAnalyzeText hash b env req).response.label = "uncertain" ∧
    (bridgeAnalyzeText hash b env req).response.confidence = 1/10 ∧
    (bridgeAnalyzeText hash b env req).response.reasons = ["Model analysis unavailable"] := by
  have main : (bridgeAnalyzeText hash b env req).response = emergencyAnalysisResponse := by
    unfold bridgeAnalyzeText
    obtain ⟨e2, he2⟩ := ProviderRun.error_of_ok_false hf
    cases hb : b.primary with
    | none => simp [he2]
    | some p =>
      obtain ⟨e1, he1⟩ := ProviderRun.error_of_ok_false (hp p hb)
      simp [he1, he2]
  exact ⟨main, by rw [main]; rfl, by rw [main]; rfl, by rw [main]; rfl,
    by rw [main]; rfl⟩

/-- Witness for C1: a Gemini-primary bridge where both the primary call and
the fallback call hit a cache miss followed by a timeout. -/
theorem claim_C1_bridge_never_throws_degraded_witness :
    (bridgeAnalyzeText (fun _ => "h")
        (initializeProviders ⟨.gemini, "m", some "k", none⟩)
        ⟨⟨fun _ => none, .timeout⟩, ⟨fun _ => none, .timeout⟩⟩
        ⟨"t", none⟩).response = emergencyAnalysisResponse :=
  (claim_C1_bridge_never_throws_degraded (fun _ => "h")
    (initializeProviders ⟨.gemini, "m", some "k", none⟩)
    ⟨⟨fun _ => none, .timeout⟩, ⟨fun _ => none, .timeout⟩⟩
    ⟨"t", none⟩
    (fun p hp => by
      rw [show (initializeProviders ⟨.gemini, "m", some "k", none⟩).primary =
          some ⟨.gemini, some "k", "m", "gemini"⟩ from rfl] at hp
      cases hp
      rfl)
    rfl).1

/-- On a cache miss followed by a timeout or a non-2xx status, the remote
`analyzeText` method rethrows. -/
theorem remoteAnalyzeText_error_of_netfail (hash : String → String)
    (modelName providerName : String) (env : Env) (req : AnalysisRequest)
    (hmiss : env.cacheGet (generateCacheKey hash modelName req.text "analysis") = none)
    (hfail : env.net = .timeout ∨ ∃ s, env.net = .non2xx s) :
    ∃ e, (remoteAnalyzeText hash modelName providerName env req).result =
      Except.error e := by
  unfold remoteAnalyzeText
  rcases hfail with hn | ⟨s, hn⟩ <;> simp [hmiss, hn]

/-- For the two remote provider classes the dispatched `analyzeText` is the
shared remote implementation. -/
theorem providerAnalyzeText_remote (hash : String → String) (p : Provider)
    (env : Env) (req : AnalysisRequest)
    (hk : p.kind = .gemini ∨ p.kind = .openai) :
    providerAnalyzeText hash p env req =
      remoteAnalyzeText hash p.modelName p.providerName env req := by
  unfold providerAnalyzeText
  rcases hk with hk | hk <;> rw [hk]

/-- Counterexample to **C2** as stated: with a Gemini primary provider, a
cache miss and an HTTP-successful reply whose body is malformed (no content
to extract), `ModelBridge.analyzeText` makes exactly one provider call — the
fallback is *not* invoked — and returns the parser's degraded placeholder as
a success. -/
theorem claim_C2_counterexample :
    (bridgeAnalyzeText (fun _ => "h")
        (initializeProviders ⟨.gemini, "m", some "k", none⟩)
        ⟨⟨fun _ => none, .ok .noContent⟩, ⟨fun _ => none, .timeout⟩⟩
        ⟨"t", none⟩).calls = [⟨.gemini, some "k", "m", "gemini"⟩] ∧
    (bridgeAnalyzeText (fun _ => "h")
        (initializeProviders ⟨.gemini, "m", some "k", none⟩)
        ⟨⟨fun _ => none, .ok .noContent⟩, ⟨fun _ => none, .timeout⟩⟩
        ⟨"t", none⟩).response = parseFailureResponse "m" "gemini" :=
  ⟨rfl, rfl⟩

/-- **C2 (amended)**: for every request whose cache lookup misses, if the
primary provider call fails by timeout or by a non-2xx HTTP status, the
bridge invokes the fallback provider on that same request.  (A malformed
response body, by contrast, is swallowed inside `parseAnalysisResponse`,
which returns the degraded placeholder as a success, so it never reaches the
fallback path — see the counterexample.) -/
theorem claim_C2_amended_fallback_on_netfail (hash : String → String)
    (b : Bridge) (p : Provider) (env : BridgeEnv) (req : AnalysisRequest)
    (hb : b.primary = some p)
    (hkind : p.kind = .gemini ∨ p.kind = .openai)
    (hmiss : env.primaryEnv.cacheGet
      (generateCacheKey hash p.modelName req.text "analysis") = none)
    (hfail : env.primaryEnv.net = .timeout ∨ ∃ s, env.primaryEnv.net = .non2xx s) :
    (bridgeAnalyzeText hash b env req).calls = [p, b.fallbackProvider] := by
  obtain ⟨e, he⟩ := remoteAnalyzeText_error_of_netfail hash p.modelName p.providerName
    env.primaryEnv req hmiss hfail
  have hdisp := providerAnalyzeText_remote hash p env.primaryEnv req hkind
  unfold bridgeAnalyzeText
  rw [hb]
  cases hr : (providerAnalyzeText hash b.fallbackProvider env.fallbackEnv req).result <;>
    simp [hdisp, he, hr]

/-- Witness for the amended C2: Gemini primary, cache miss, timeout — the
fallback provider (here the same instance, see C3) is invoked. -/
theorem claim_C2_amended_fallback_on_netfail_witness :
    (bridgeAnalyzeText (fun _ => "h")
        (initializeProviders ⟨.gemini, "m", some "k", none⟩)
        ⟨⟨fun _ => none, .timeout⟩, ⟨fun _ => none, .timeout⟩⟩
        ⟨"t", none⟩).calls =
      [⟨.gemini, some "k", "m", "gemini"⟩,
        (initializeProviders ⟨.gemini, "m", some "k", none⟩).fallbackProvider] :=
  claim_C2_amended_fallback_on_netfail (fun _ => "h")
    (initializeProviders ⟨.gemini, "m", some "k", none⟩)
    ⟨.gemini, some "k", "m", "gemini"⟩
    ⟨⟨fun _ => none, .timeout⟩, ⟨fun _ => none, .timeout⟩⟩
    ⟨"t", none⟩
    rfl (Or.inl rfl) rfl (Or.inl rfl)

/-- Counterexample to **C3** as stated: with a configured Gemini provider and
API key, `initializeProviders` leaves the `'fallback'` slot empty and sets
`this.fallbackProvider` to the very provider instance stored in the
`'primary'` slot — the fallback is the same instance that just failed, not a
different one. -/
theorem claim_C3_counterexample :
    (initializeProviders ⟨.gemini, "m", some "k", none⟩).primary =
      some (initializeProviders ⟨.gemini, "m", some "k", none⟩).fallbackProvider ∧
    (initializeProviders ⟨.gemini, "m", some "k", none⟩).fallbackSlot = none :=
  ⟨rfl, rfl⟩

/-- **C3 (amended)**: when the primary provider call fails, control passes to
the fallback path exactly once — the call trace is the primary followed by
one single call to `fallbackProvider`, with no retry loop.  However, whenever
a bridge built by `initializeProviders` has a primary provider at all, its
`fallbackProvider` is that same primary instance (the distinct `'fallback'`
slot is only filled when no primary exists), so the single fallback call goes
to the provider that just failed; only a bridge with no provider configured
degrades to a distinct local stub. -/
theorem claim_C3_amended_fallback_once_same_instance (hash : String → String)
    (cfg : AppConfig) (p : Provider) (env : BridgeEnv) (req : AnalysisRequest)
    (hb : (initializeProviders cfg).primary = some p)
    (hfail : (providerAnalyzeText hash p env.primaryEnv req).ok = false) :
    (bridgeAnalyzeText hash (initializeProviders cfg) env req).calls =
      [p, (initializeProviders cfg).fallbackProvider] ∧
    (initializeProviders cfg).fallbackProvider = p := by
  obtain ⟨e, he⟩ := ProviderRun.error_of_ok_false hfail
  refine ⟨?_, initializeProviders_fallback_eq_primary cfg p hb⟩
  unfold bridgeAnalyzeText
  rw [hb]
  cases hr : (providerAnalyzeText hash
      (initializeProviders cfg).fallbackProvider env.fallbackEnv req).result <;>
    simp [he, hr]

/-- Witness for the amended C3: Gemini primary with a cache miss and timeout;
the trace is one primary call followed by exactly one fallback call, and the
fallback is the primary instance itself. -/
theorem claim_C3_amended_fallback_once_same_instance_witness :
    (bridgeAnalyzeText (fun _ => "h")
        (initializeProviders ⟨.gemini, "m", some "k", none⟩)
        ⟨⟨fun _ => none, .timeout⟩, ⟨fun _ => none, .timeout⟩⟩
        ⟨"t", none⟩).calls =
      [⟨.gemini, some "k", "m", "gemini"⟩,
        (initializeProviders ⟨.gemini, "m", some "k", none⟩).fallbackProvider] ∧
    (initializeProviders ⟨.gemini, "m", some "k", none⟩).fallbackProvider =
      ⟨.gemini, some "k", "m", "gemini"⟩ :=
  claim_C3_amended_fallback_once_same_instance (fun _ => "h")
    ⟨.gemini, "m", some "k", none⟩
    ⟨.gemini, some "k", "m", "gemini"⟩
    ⟨⟨fun _ => none, .timeout⟩, ⟨fun _ => none, .timeout⟩⟩
    ⟨"t", none⟩
    rfl rfl

/-- **C5**: cache idempotence of identical `analyzeText` requests within the
TTL window (the second call reads the state left by the first, modelled by
`cacheAfterRun`): if the first call resolved with `r`, the second call on any
request with the same text returns `r` unchanged without any network call —
so the remote provider is contacted at most once across the two calls — and
whenever the first call did reach the network, it stored its normalized
result under the content-derived cache key. -/
theorem claim_C5_cache_idempotent (hash : String → String)
    (modelName providerName : String) (c0 : String → Option AnalysisResponse)
    (net1 net2 : NetOutcome ProviderBody) (req1 req2 : AnalysisRequest)
    (r : AnalysisResponse)
    (htext : req2.text = req1.text)
    (h1 : (remoteAnalyzeText hash modelName providerName ⟨c0, net1⟩ req1).result = .ok r) :
    (remoteAnalyzeText hash modelName providerName
        ⟨cacheAfterRun c0
          (remoteAnalyzeText hash modelName providerName ⟨c0, net1⟩ req1).cacheSets,
          net2⟩ req2).result = .ok r ∧
    (remoteAnalyzeText hash modelName providerName
        ⟨cacheAfterRun c0
          (remoteAnalyzeText hash modelName providerName ⟨c0, net1⟩ req1).cacheSets,
          net2⟩ req2).networkCalled = false ∧
    ((remoteAnalyzeText hash modelName providerName ⟨c0, net1⟩ req1).networkCalled = true →
      (remoteAnalyzeText hash modelName providerName ⟨c0, net1⟩ req1).cacheSets =
        [(generateCacheKey hash modelName req1.text "analysis", r, 3600)]) := by
  have hkey : generateCacheKey hash modelName req2.text "analysis" =
      generateCacheKey hash modelName req1.text "analysis" := by rw [htext]
  cases hc : c0 (generateCacheKey hash modelName req1.text "analysis") with
  | some v =>
    have hres : remoteAnalyzeText hash modelName providerName ⟨c0, net1⟩ req1 =
        { result := .ok v, networkCalled := false, cacheSets := [] } := by
      unfold remoteAnalyzeText
      simp [hc]
    rw [hres] at h1 ⊢
    have hv : v = r := Except.ok.inj h1
    subst hv
    refine ⟨?_, ?_, ?_⟩
    · unfold remoteAnalyzeText cacheAfterRun
      simp [hkey, hc]
    · unfold remoteAnalyzeText cacheAfterRun
      simp [hkey, hc]
    · intro hnet
      simp at hnet
  | none =>
    cases hn : net1 with
    | timeout =>
      exfalso
      unfold remoteAnalyzeText at h1
      simp [hc, hn] at h1
    | non2xx s =>
      exfalso
      unfold remoteAnalyzeText at h1
      simp [hc, hn] at h1
    | ok body =>
      have hres : remoteAnalyzeText hash modelName providerName ⟨c0, .ok body⟩ req1 =
          { result := .ok (parseAnalysisResponse modelName providerName body)
            networkCalled := true
            cacheSets := [(generateCacheKey hash modelName req1.text "analysis",
              parseAnalysisResponse modelName providerName body, 3600)] } := by
        unfold remoteAnalyzeText
        simp [hc]
      rw [hn] at h1
      rw [hres] at h1 ⊢
      have hv : parseAnalysisResponse modelName providerName body = r := Except.ok.inj h1
      refine ⟨?_, ?_, fun _ => by rw [hv]⟩
      · unfold remoteAnalyzeText cacheAfterRun
        simp [hkey, hv]
      · unfold remoteAnalyzeText cacheAfterRun
        simp [hkey, hv]

/-- Witness for C5: first call misses an empty cache and gets a well-formed
provider reply; the second identical call answers from cache without a
network call. -/
theorem claim_C5_cache_idempotent_witness :
    (remoteAnalyzeText (fun _ => "h") "m" "gemini"
        ⟨cacheAfterRun (fun _ => none)
          (remoteAnalyzeText (fun _ => "h") "m" "gemini"
            ⟨fun _ => none, .ok (.json ⟨some (9/10), some "suspicious", some ["urgency"],
              some "looks bad", some (4/5)⟩)⟩ ⟨"t", none⟩).cacheSets,
          .timeout⟩ ⟨"t", none⟩).result =
      .ok (parseAnalysisResponse "m" "gemini"
        (.json ⟨some (9/10), some "suspicious", some ["urgency"], some "looks bad",
          some (4/5)⟩)) ∧
    (remoteAnalyzeText (fun _ => "h") "m" "gemini"
        ⟨cacheAfterRun (fun _ => none)
          (remoteAnalyzeText (fun _ => "h") "m" "gemini"
            ⟨fun _ => none, .ok (.json ⟨some (9/10), some "suspicious", some ["urgency"],
              some "looks bad", some (4/5)⟩)⟩ ⟨"t", none⟩).cacheSets,
          .timeout⟩ ⟨"t", none⟩).networkCalled = false := by
  have h := claim_C5_cache_idempotent (fun _ => "h") "m" "gemini" (fun _ => none)
    (.ok (.json ⟨some (9/10), some "suspicious", some ["urgency"], some "looks bad",
      some (4/5)⟩)) .timeout ⟨"t", none⟩ ⟨"t", none⟩
    (parseAnalysisResponse "m" "gemini"
      (.json ⟨some (9/10), some "suspicious", some ["urgency"], some "looks bad",
        some (4/5)⟩))
    rfl rfl
  exact ⟨h.1, h.2.1⟩

/-- **C6**: a successful remote reply is never returned verbatim: the value
the provider method returns on the network-success path is exactly the output
of `parseAnalysisResponse`, whose score and confidence are clamped into
`[0,1]` for every possible body, with `label` defaulted to `'uncertain'`,
`reasons` to `[]` and `explanation` to `'Analysis completed'` when the parsed
object omits them. -/
theorem claim_C6_normalized_response (hash : String → String)
    (modelName providerName : String) (env : Env) (req : AnalysisRequest)
    (f : ParsedFields)
    (hmiss : env.cacheGet (generateCacheKey hash modelName req.text "analysis") = none)
    (hnet : env.net = .ok (.json f)) :
    (remoteAnalyzeText hash modelName providerName env req).result =
      .ok (parseAnalysisResponse modelName providerName (.json f)) ∧
    (∀ data : ProviderBody,
      0 ≤ (parseAnalysisResponse modelName providerName data).score ∧
      (parseAnalysisResponse modelName providerName data).score ≤ 1 ∧
      0 ≤ (parseAnalysisResponse modelName providerName data).confidence ∧
      (parseAnalysisResponse modelName providerName data).confidence ≤ 1) ∧
    (f.label = none →
      (parseAnalysisResponse modelName providerName (.json f)).label = "uncertain") ∧
    (f.reasons = none →
      (parseAnalysisResponse modelName providerName (.json f)).reasons = []) ∧
    (f.explanation = none →
      (parseAnalysisResponse modelName providerName (.json f)).explanation
        = "Analysis completed") := by
  refine ⟨?_, ?_, ?_, ?_, ?_⟩
  · unfold remoteAnalyzeText
    simp [hmiss, hnet]
  · intro data
    cases data with
    | json g =>
      exact ⟨clamp01_nonneg _, clamp01_le_one _, clamp01_nonneg _, clamp01_le_one _⟩
    | noContent => norm_num [parseAnalysisResponse, parseFailureResponse]
    | noJsonMatch => norm_num [parseAnalysisResponse, parseFailureResponse]
    | badJson => norm_num [parseAnalysisResponse, parseFailureResponse]
  · intro hl
    simp [parseAnalysisResponse, jsOrStr, hl]
  · intro hr
    simp [parseAnalysisResponse, hr]
  · intro he
    simp [parseAnalysisResponse, jsOrStr, he]

/-- Witness for C6: a reply whose parsed object has an out-of-range score and
omits label, reasons and explanation — the returned response is the
normalized one. -/
theorem claim_C6_normalized_response_witness :
    (remoteAnalyzeText (fun _ => "h") "m" "gemini"
        ⟨fun _ => none, .ok (.json ⟨some 2, none, none, none, none⟩)⟩
        ⟨"t", none⟩).result =
      .ok (parseAnalysisResponse "m" "gemini" (.json ⟨some 2, none, none, none, none⟩)) ∧
    (parseAnalysisResponse "m" "gemini" (.json ⟨some 2, none, none, none, none⟩)).score ≤ 1 ∧
    (parseAnalysisResponse "m" "gemini"
      (.json ⟨some 2, none, none, none, none⟩)).label = "uncertain" ∧
    (parseAnalysisResponse "m" "gemini"
      (.json ⟨some 2, none, none, none, none⟩)).reasons = [] := by
  have h := claim_C6_normalized_response (fun _ => "h") "m" "gemini"
    ⟨fun _ => none, .ok (.json ⟨some 2, none, none, none, none⟩)⟩
    ⟨"t", none⟩ ⟨some 2, none, none, none, none⟩ rfl rfl
  exact ⟨h.1, (h.2.1 (.json ⟨some 2, none, none, none, none⟩)).2.1,
    h.2.2.1 rfl, h.2.2.2.1 rfl⟩

/-- **C8**: on the network-success path, `analyzeText` stores its result with
a TTL of exactly 3600 seconds under `analysis:<hash(text)>:<model>`, and
`chat` stores its result with a TTL of exactly 1800 seconds under
`chat:<hash(context:question)>:<model>`; `cache.generateKey` concatenates
operation name, content hash and model name with `':'`. -/
theorem claim_C8_cache_ttls (hash : String → String)
    (sourceTag modelName providerName : String)
    (env : Env) (cenv : ChatEnv) (areq : AnalysisRequest) (creq : ChatRequest)
    (abody : ProviderBody) (cbody : ChatBody)
    (hmiss : env.cacheGet (generateCacheKey hash modelName areq.text "analysis") = none)
    (hnet : env.net = .ok abody)
    (hcmiss : cenv.cacheGet (generateCacheKey hash modelName
      (creq.context ++ ":" ++ creq.question) "chat") = none)
    (hcnet : cenv.net = .ok cbody) :
    (remoteAnalyzeText hash modelName providerName env areq).cacheSets =
      [(cacheGenerateKey "analysis" (hash areq.text) modelName,
        parseAnalysisResponse modelName providerName abody, 3600)] ∧
    (remoteChat hash sourceTag modelName providerName cenv creq).cacheSets =
      [(cacheGenerateKey "chat" (hash (creq.context ++ ":" ++ creq.question)) modelName,
        parseChatResponse sourceTag modelName providerName cbody, 1800)] ∧
    (∀ op h m : String, cacheGenerateKey op h m = op ++ ":" ++ h ++ ":" ++ m) := by
  have hmiss' : env.cacheGet
      (cacheGenerateKey "analysis" (hash areq.text) modelName) = none := hmiss
  have hcmiss' : cenv.cacheGet
      (cacheGenerateKey "chat" (hash (creq.context ++ ":" ++ creq.question)) modelName)
        = none := hcmiss
  refine ⟨?_, ?_, fun op h m => rfl⟩
  · unfold remoteAnalyzeText
    simp [generateCacheKey, hmiss', hnet]
  · unfold remoteChat
    simp [generateCacheKey, hcmiss', hcnet]

/-- Witness for C8: concrete analysis and chat calls on an empty cache. -/
theorem claim_C8_cache_ttls_witness :
    (remoteAnalyzeText (fun _ => "h") "m" "gemini"
        ⟨fun _ => none, .ok .noContent⟩ ⟨"t", none⟩).cacheSets =
      [(cacheGenerateKey "analysis" "h" "m",
        parseAnalysisResponse "m" "gemini" .noContent, 3600)] ∧
    (remoteChat (fun _ => "h") "Gemini AI Model" "m" "gemini"
        ⟨fun _ => none, .ok (.content "hello")⟩ ⟨"c", "q", none⟩).cacheSets =
      [(cacheGenerateKey "chat" "h" "m",
        parseChatResponse "Gemini AI Model" "m" "gemini" (.content "hello"), 1800)] := by
  have h := claim_C8_cache_ttls (fun _ => "h") "Gemini AI Model" "m" "gemini"
    ⟨fun _ => none, .ok .noContent⟩ ⟨fun _ => none, .ok (.content "hello")⟩
    ⟨"t", none⟩ ⟨"c", "q", none⟩ .noContent (.content "hello")
    rfl rfl rfl rfl
  exact ⟨h.1, h.2.1⟩

/-- **C10**: when the HTTP call succeeds but the body is malformed (any of
the three parse-failure shapes), the provider returns the degraded
placeholder as a *successful* result, caches it under the content-derived
key with the full 3600 s analysis TTL, and any identical request against the
resulting cache state is answered with the placeholder without any network
call. -/
theorem claim_C10_placeholder_cached (hash : String → String)
    (modelName providerName : String) (c0 : String → Option AnalysisResponse)
    (req1 req2 : AnalysisRequest) (body : ProviderBody) (net2 : NetOutcome ProviderBody)
    (hbody : body = .noContent ∨ body = .noJsonMatch ∨ body = .badJson)
    (hmiss : c0 (generateCacheKey hash modelName req1.text "analysis") = none)
    (htext : req2.text = req1.text) :
    (remoteAnalyzeText hash modelName providerName ⟨c0, .ok body⟩ req1).result =
      .ok (parseFailureResponse modelName providerName) ∧
    (remoteAnalyzeText hash modelName providerName ⟨c0, .ok body⟩ req1).cacheSets =
      [(generateCacheKey hash modelName req1.text "analysis",
        parseFailureResponse modelName providerName, 3600)] ∧
    (remoteAnalyzeText hash modelName providerName
        ⟨cacheAfterRun c0
          (remoteAnalyzeText hash modelName providerName ⟨c0, .ok body⟩ req1).cacheSets,
          net2⟩ req2).result =
      .ok (parseFailureResponse modelName providerName) ∧
    (remoteAnalyzeText hash modelName providerName
        ⟨cacheAfterRun c0
          (remoteAnalyzeText hash modelName providerName ⟨c0, .ok body⟩ req1).cacheSets,
          net2⟩ req2).networkCalled = false := by
  have hkey : generateCacheKey hash modelName req2.text "analysis" =
      generateCacheKey hash modelName req1.text "analysis" := by rw [htext]
  have hparse : parseAnalysisResponse modelName providerName body =
      parseFailureResponse modelName providerName := by
    rcases hbody with h | h | h <;> rw [h] <;> rfl
  have hres : remoteAnalyzeText hash modelName providerName ⟨c0, .ok body⟩ req1 =
      { result := .ok (parseFailureResponse modelName providerName)
        networkCalled := true
        cacheSets := [(generateCacheKey hash modelName req1.text "analysis",
          parseFailureResponse modelName providerName, 3600)] } := by
    unfold remoteAnalyzeText
    simp [hmiss, hparse]
  rw [hres]
  refine ⟨rfl, rfl, ?_, ?_⟩
  · unfold remoteAnalyzeText cacheAfterRun
    simp [hkey]
  · unfold remoteAnalyzeText cacheAfterRun
    simp [hkey]

/-- Witness for C10: empty cache, Gemini reply with no extractable content;
the placeholder is returned, cached for an hour, and served from cache on
the identical follow-up request. -/
theorem claim_C10_placeholder_cached_witness :
    (remoteAnalyzeText (fun _ => "h") "m" "gemini"
        ⟨fun _ => none, .ok .noContent⟩ ⟨"t", none⟩).result =
      .ok (parseFailureResponse "m" "gemini") ∧
    (remoteAnalyzeText (fun _ => "h") "m" "gemini"
        ⟨cacheAfterRun (fun _ => none)
          (remoteAnalyzeText (fun _ => "h") "m" "gemini"
            ⟨fun _ => none, .ok .noContent⟩ ⟨"t", none⟩).cacheSets,
          .timeout⟩ ⟨"t", none⟩).result =
      .ok (parseFailureResponse "m" "gemini") ∧
    (remoteAnalyzeText (fun _ => "h") "m" "gemini"
        ⟨cacheAfterRun (fun _ => none)
          (remoteAnalyzeText (fun _ => "h") "m" "gemini"
            ⟨fun _ => none, .ok .noContent⟩ ⟨"t", none⟩).cacheSets,
          .timeout⟩ ⟨"t", none⟩).networkCalled = false := by
  have h := claim_C10_placeholder_cached (fun _ => "h") "m" "gemini" (fun _ => none)
    ⟨"t", none⟩ ⟨"t", none⟩ .noContent .timeout (Or.inl rfl) rfl rfl
  exact ⟨h.1, h.2.2.1, h.2.2.2⟩
